import Mathlib

/-!
Verification development for the redditarr acquisition pipeline.

Shallow embedding of the core modules:
* `app/core/utils.py` — `RateLimiter`
* `app/services/download_queue.py` — `DownloadQueue.get_next_batch`
* `app/downloader/__init__.py` — fetch/retry executor and deduplication engine
* `app/services/task_queues.py` — `TaskQueue._process_queue`

Machine time is modelled by `ℚ`; SQLite rows by Lean structures; the
filesystem by association lists from paths to file contents.
-/

namespace Redditarr

/-- Substring containment, modelling Python's `needle in hay`. -/
def containsSub (hay needle : String) : Bool :=
  (List.range (hay.length + 1)).any fun i =>
    needle.toList.isPrefixOf (hay.toList.drop i)

/-- Python `str.lower()`, written via the character list so the kernel can
evaluate it. -/
def strLower (s : String) : String :=
  String.mk (s.data.map Char.toLower)

/-- Python `int()` applied to a rational: truncation toward zero. -/
def pyInt (q : ℚ) : ℤ :=
  if 0 ≤ q then ⌊q⌋ else -⌊-q⌋

/-! ## Rate limiter (`app/core/utils.py`, class `RateLimiter`) -/

/-- State of a `RateLimiter` instance.  `delay = 60.0 / calls_per_minute`;
`burstAllowance` models `burst_allowance` with Python's `None`/`0` falsiness
collapsed to `0` (both disable the replenishment branch); `burstTokens` is an
integer because Python arithmetic on it is unbounded. -/
structure RateLimiter where
  delay : ℚ
  burstAllowance : Nat
  burstTokens : ℤ
  lastCall : ℚ
  randomDelay : Bool
  deriving Repr, DecidableEq

/-- Constructor semantics of `RateLimiter.__init__`: `delay = 60/calls_per_minute`,
`last_call = 0`, `burst_tokens = burst_allowance if burst_allowance else 0`. -/
def RateLimiter.init (callsPerMinute : ℚ) (randomDelay : Bool)
    (burstAllowance : Nat) : RateLimiter :=
  { delay := 60 / callsPerMinute
    burstAllowance := burstAllowance
    burstTokens := burstAllowance
    lastCall := 0
    randomDelay := randomDelay }

/-- Token replenishment step of `acquire`: `if self.burst_allowance:` then
`burst_tokens = min(burst_allowance, burst_tokens + int(elapsed / delay))`. -/
def replenish (allowance : Nat) (tokens : ℤ) (elapsed delay : ℚ) : ℤ :=
  if allowance ≠ 0 then min (allowance : ℤ) (tokens + pyInt (elapsed / delay))
  else tokens

/-- One call of `RateLimiter.acquire`, annotated with idealized time.
`now` is the instant the critical section is entered, `jit` the value sampled
by `random.uniform(0, required_delay * 0.2)`.  The call suspends for the
computed delay and then stores the completion instant in `last_call`; we model
`asyncio.sleep` as sleeping exactly the requested time, so the new `lastCall`
is `now + required`.  Returns the new state and the base (pre-jitter) delay. -/
def RateLimiter.acquire (s : RateLimiter) (now jit : ℚ) : RateLimiter × ℚ :=
  let tokens := replenish s.burstAllowance s.burstTokens (now - s.lastCall) s.delay
  let requiredBase : ℚ :=
    if 0 < tokens then 0 else max 0 (s.delay - (now - s.lastCall))
  let tokens' := if 0 < tokens then tokens - 1 else tokens
  let required : ℚ :=
    if s.randomDelay ∧ 0 < requiredBase then requiredBase + jit else requiredBase
  ({ s with burstTokens := tokens', lastCall := now + required }, requiredBase)

/-- A call of `acquire` issued immediately at the previous completion instant
(no intervening delay), with jitter sample 0. -/
def RateLimiter.acquireNow (s : RateLimiter) : RateLimiter × ℚ :=
  s.acquire s.lastCall 0

/-- Base delays observed over a run of back-to-back `acquire` calls, each call
issued the instant the previous one completes. -/
def burstRun (s : RateLimiter) : Nat → List ℚ
  | 0 => []
  | n + 1 =>
    let r := s.acquireNow
    r.2 :: burstRun r.1 n

/-! ## Download scheduler (`app/services/download_queue.py`, `get_next_batch`)

Embedding of the subreddit-selection query.  Post ids are opaque identifiers
(TEXT in SQLite), modelled as `Nat` here. -/

/-- Row of the `subreddits` table (fields used by the selection query). -/
structure SubredditRow where
  name : String
  status : String
  deriving Repr, DecidableEq

/-- Row of the `posts` table (fields used by the selection query). -/
structure SchedPost where
  id : Nat
  subreddit : String
  downloaded : Bool
  error : Option String
  deriving Repr, DecidableEq

/-- SQL `COUNT(DISTINCT e)`: number of distinct non-NULL values (NULLs are
dropped before this is applied, via `filterMap`). -/
def countDistinct {α : Type} [DecidableEq α] (l : List α) : Nat :=
  l.dedup.length

/-- SQLite `ROUND(x, 2)`.  For the nonnegative values produced by the query,
rounding half away from zero agrees with `⌊x * 100 + 1/2⌋ / 100`. -/
def round2 (q : ℚ) : ℚ :=
  ((⌊q * 100 + 1 / 2⌋ : ℤ) : ℚ) / 100

/-- One row of the `subreddit_stats` CTE (its integer columns; the
`percent_complete` column is the derived value `percentComplete` below). -/
structure SubredditStats where
  name : String
  total_posts : Nat
  downloaded_count : Nat
  deriving Repr, DecidableEq

/-- The `percent_complete` column:
`ROUND(CAST(downloaded_count AS FLOAT) / CAST(total_posts AS FLOAT) * 100, 2)`. -/
def percentComplete (st : SubredditStats) : ℚ :=
  round2 ((st.downloaded_count : ℚ) / (st.total_posts : ℚ) * 100)

/-- The `subreddit_stats` CTE of `get_next_batch`: for each subreddit in
`ready` status having an undownloaded post with `error IS NULL`, compute
`COUNT(DISTINCT p.id)` and `COUNT(DISTINCT CASE WHEN p.downloaded = 1 THEN 1 END)`
over its posts.  Note the `CASE` expression yields the single value `1` on
downloaded rows and NULL otherwise, so its distinct count is `1` or `0`. -/
def subredditStats (subs : List SubredditRow) (posts : List SchedPost) :
    List SubredditStats :=
  subs.filterMap fun s =>
    if s.status == "ready" &&
        posts.any (fun p => p.subreddit == s.name && !p.downloaded && p.error.isNone) then
      let rows := posts.filter fun p => p.subreddit == s.name
      let total := countDistinct (rows.map (·.id))
      let dc := countDistinct
        (rows.filterMap fun p => if p.downloaded then some (1 : Nat) else none)
      some ⟨s.name, total, dc⟩
    else none

/-- SQL `ORDER BY percent_complete ASC, total_posts DESC LIMIT 1`. -/
def selectLowestCompletion : List SubredditStats → Option SubredditStats
  | [] => none
  | x :: xs =>
    some <| xs.foldl
      (fun best y =>
        if percentComplete y < percentComplete best ∨
            (percentComplete y = percentComplete best ∧
              best.total_posts < y.total_posts)
        then y else best) x

/-- Name of the subreddit chosen by `get_next_batch`. -/
def getNextBatchSubreddit (subs : List SubredditRow) (posts : List SchedPost) :
    Option String :=
  (selectLowestCompletion (subredditStats subs posts)).map (·.name)

/-- Demo state from the spec scenario: subreddit A with 10 posts, 1 downloaded;
subreddit B with 100 posts, 50 downloaded; both ready, no errors. -/
def demoSubreddits : List SubredditRow :=
  [⟨"sub_a", "ready"⟩, ⟨"sub_b", "ready"⟩]

/-- Posts of the demo state: ids 0–9 in `sub_a` (id 0 downloaded), ids 100–199
in `sub_b` (ids 100–149 downloaded). -/
def demoPosts : List SchedPost :=
  ((List.range 10).map fun i => ⟨i, "sub_a", decide (i < 1), none⟩) ++
  ((List.range 100).map fun i => ⟨100 + i, "sub_b", decide (i < 50), none⟩)

/-! ## Fetch executor (`app/downloader/__init__.py`, `download_file` /
`_validate_downloaded_file` / `download_with_retry`)

The downloader filesystem maps paths to byte contents (`List Nat`). -/

/-- Downloader-side filesystem: association of paths to byte contents. -/
abbrev ByteFS := List (String × List Nat)

/-- Lookup a file's bytes. -/
def fsLookupB (fs : ByteFS) (p : String) : Option (List Nat) :=
  (fs.find? (fun e => e.1 == p)).map (·.2)

/-- Model of `open(path, 'wb')` plus chunked writes: the path now holds
exactly the written bytes. -/
def fsWriteB (fs : ByteFS) (p : String) (content : List Nat) : ByteFS :=
  (p, content) :: fs.filter (fun e => e.1 != p)

/-- Model of `os.remove(path)`. -/
def fsRemoveB (fs : ByteFS) (p : String) : ByteFS :=
  fs.filter (fun e => e.1 != p)

/-- Magic-number signature table of `_validate_downloaded_file`
(byte sequence, offset). -/
def signatures : List (String × List (List Nat × Nat)) :=
  [("jpeg", [([0xFF, 0xD8, 0xFF, 0xE0], 0),
             ([0xFF, 0xD8, 0xFF, 0xE1], 0),
             ([0xFF, 0xD8, 0xFF, 0xDB], 0)]),
   ("png", [([0x89, 0x50, 0x4E, 0x47, 0x0D, 0x0A, 0x1A, 0x0A], 0)]),
   ("gif", [([0x47, 0x49, 0x46, 0x38, 0x37, 0x61], 0),
            ([0x47, 0x49, 0x46, 0x38, 0x39, 0x61], 0)]),
   ("mp4", [([0x66, 0x74, 0x79, 0x70], 4),
            ([0x6D, 0x64, 0x61, 0x74], 4)]),
   ("webm", [([0x1A, 0x45, 0xDF, 0xA3], 0)])]

/-- Signature set chosen from the declared content type in
`_validate_downloaded_file`; with no recognized type, all signatures. -/
def validSigsFor (contentType : String) : List (List Nat × Nat) :=
  if containsSub contentType "image/jpeg" then (signatures.lookup "jpeg").getD []
  else if containsSub contentType "image/png" then (signatures.lookup "png").getD []
  else if containsSub contentType "image/gif" then (signatures.lookup "gif").getD []
  else if containsSub contentType "video/mp4" then (signatures.lookup "mp4").getD []
  else if containsSub contentType "video/webm" then (signatures.lookup "webm").getD []
  else signatures.flatMap (·.2)

/-- Embedding of `_validate_downloaded_file`: match the first 12 bytes of the
file against the applicable signatures. -/
def validateDownloadedFile (content : List Nat) (contentType : String) :
    Bool × Option String :=
  let header := content.take 12
  if (validSigsFor contentType).any
      (fun sg => (header.drop sg.2).take sg.1.length == sg.1) then
    (true, none)
  else
    (false, some ("Invalid file signature for content type " ++ contentType))

/-- HTTP response delivered by `session.get`: status, `content-length` and
`content-type` headers, the chunks streamed before an optional mid-stream
exception. -/
structure HttpResponse where
  status : Nat
  contentLength : Nat
  contentType : String
  chunks : List Nat
  streamError : Option String
  deriving Repr, DecidableEq

/-- Streamed-write stage of `download_file` (the `with open(save_path, 'wb')`
block and the post-download checks): the chunks are written to `save_path`;
a mid-stream exception, an empty file, the 503-byte imgur sentinel, or a
magic-number mismatch each delete the file and fail. -/
def downloadWrite (fs : ByteFS) (savePath service ct : String)
    (r : HttpResponse) : (Bool × Option String) × ByteFS :=
  let fs1 := fsWriteB fs savePath r.chunks
  match r.streamError with
  | some e => ((false, some e), fsRemoveB fs1 savePath)
  | none =>
    let finalSize := r.chunks.length
    if finalSize == 0 then
      ((false, some "Empty file downloaded"), fsRemoveB fs1 savePath)
    else if service == "imgur" && finalSize == 503 then
      ((false, some "Imgur removed image (503 bytes)"), fsRemoveB fs1 savePath)
    else
      match validateDownloadedFile r.chunks ct with
      | (true, _) => ((true, none), fs1)
      | (false, err) => ((false, err), fsRemoveB fs1 savePath)

/-- Response-handling stage of `download_file`: the status classification
and the header pre-checks, then the write stage.  Statuses outside the four
handled codes that are `>= 400` make `raise_for_status` raise, which the
final `except` turns into a failure after removing any file at `save_path`. -/
def downloadResponse (fs : ByteFS) (savePath service : String)
    (r : HttpResponse) : (Bool × Option String) × ByteFS :=
  if r.status == 404 then ((false, some "Media no longer available on server"), fs)
  else if r.status == 410 then ((false, some "Media permanently removed"), fs)
  else if r.status == 429 then
    ((false, some (service ++ " rate limit exceeded - will retry")), fs)
  else if r.status == 403 then
    ((false, some "Access forbidden - media may be private or removed"), fs)
  else if 400 ≤ r.status then
    ((false, some ("HTTP status error " ++ toString r.status)), fsRemoveB fs savePath)
  else
    let ct := strLower r.contentType
    if service == "imgur" && r.contentLength == 503 then
      ((false, some "Imgur removed image (503 bytes)"), fs)
    else if (0 < r.contentLength && r.contentLength < 1024) &&
        !containsSub ct "image/gif" then
      ((false, some ("Suspiciously small file (" ++ toString r.contentLength
        ++ " bytes)")), fs)
    else
      downloadWrite fs savePath service ct r

/-- Embedding of `download_file`: result `(success, error)` plus the updated
filesystem.  `preparedUrl` is the result of `_prepare_url` (an external
collaborator for RedGifs; `none` models its `None` returns); `resp` is the
response, or `.error e` when `session.get` itself raises. -/
def downloadFile (fs : ByteFS) (url savePath service : String)
    (preparedUrl : Option String) (resp : Except String HttpResponse) :
    (Bool × Option String) × ByteFS :=
  if containsSub (strLower url) "gfycat.com" then
    ((false, some "Gfycat service discontinued"), fs)
  else if containsSub (strLower url) "giphy.com" then
    ((false, some "Giphy links no longer supported"), fs)
  else
    match preparedUrl with
    | none => ((false, some "Could not process URL"), fs)
    | some _ =>
      match resp with
      | .error e => ((false, some e), fsRemoveB fs savePath)
      | .ok r => downloadResponse fs savePath service r

/-- Per-attempt outcome of `download_file` as seen by `download_with_retry`:
success, a returned `(False, error)`, or a raised exception. -/
inductive FetchResult where
  | ok
  | fail (msg : String)
  | exc (msg : String)
  deriving Repr, DecidableEq

/-- The permanent-failure vocabulary of `download_with_retry` (matched
verbatim against the lowercased error message, so the entries containing
uppercase letters can never match). -/
def permanentFailures : List String :=
  ["removed", "410", "404", "503 bytes", "Content permanently removed",
   "Content not found"]

/-- Check `any(x in error.lower() for x in permanent_failures)`. -/
def isPermanent (e : String) : Bool :=
  permanentFailures.any fun x => containsSub (strLower e) x

/-- Observable outcome of `download_with_retry`: final result, number of
`download_file` calls made, and whether the `permanently_removed` status was
written to `post_media`. -/
structure RetryOutcome where
  success : Bool
  error : Option String
  calls : Nat
  persistedPermanent : Bool
  deriving Repr, DecidableEq

/-- Python rendering of `last_error` inside the f-string. -/
def optStr : Option String → String
  | none => "None"
  | some s => s

/-- Loop body of `download_with_retry`: `remaining` iterations of the
`for attempt in range(max_retries)` loop are left, `attempt` is the current
index, `lastError` and `calls` accumulate.  A permanent failure returned by
`download_file` persists `permanently_removed` and stops; a permanent
exception message stops without persisting; anything else sleeps with backoff
(not tracked) and retries. -/
def retryAux (fetch : Nat → FetchResult) (maxRetries : Nat) :
    Nat → Nat → Option String → Nat → RetryOutcome
  | 0, _, lastError, calls =>
    ⟨false, some ("Failed after " ++ toString maxRetries ++ " attempts: "
      ++ optStr lastError), calls, false⟩
  | remaining + 1, attempt, _, calls =>
    match fetch attempt with
    | .ok => ⟨true, none, calls + 1, false⟩
    | .fail e =>
      if isPermanent e then ⟨false, some e, calls + 1, true⟩
      else retryAux fetch maxRetries remaining (attempt + 1) (some e) (calls + 1)
    | .exc e =>
      if isPermanent e then ⟨false, some e, calls + 1, false⟩
      else retryAux fetch maxRetries remaining (attempt + 1) (some e) (calls + 1)

/-- Embedding of `download_with_retry` (default `max_retries = 3`). -/
def downloadWithRetry (fetch : Nat → FetchResult) (maxRetries : Nat := 3) :
    RetryOutcome :=
  retryAux fetch maxRetries maxRetries 0 none 0

/-- Lift a `download_file` result into the retry loop's view. -/
def fetchResultOf (r : Bool × Option String) : FetchResult :=
  match r with
  | (true, _) => .ok
  | (false, e) => .fail (optStr e)

/-- A mocked fetch whose every attempt hits HTTP 404, routed through the
`download_file` embedding. -/
def fetch404 (_ : Nat) : FetchResult :=
  fetchResultOf (downloadFile [] "https://i.redd.it/img.jpg" "media/temp/p1_0_temp"
    "reddit" (some "https://i.redd.it/img.jpg")
    (.ok ⟨404, 0, "", [], none⟩)).1

/-! ## Deduplication engine (`app/downloader/__init__.py`,
`_check_for_duplicates` / `_handle_duplicate` / `process_post`)

File contents are abstracted as strings; the content digest
(`_calculate_file_hash`, SHA-256 in the source) is a function parameter
`hashFn`.  Timestamp and mime-type columns are omitted: they enter no control
flow. -/

/-- Dedup-side filesystem: association of paths to file contents. -/
abbrev FileMap := List (String × String)

/-- Contents of the file at `p`, if present. -/
def fsLookup (fs : FileMap) (p : String) : Option String :=
  (fs.find? (fun e => e.1 == p)).map (·.2)

/-- Write `c` to path `p` (creating or replacing the file). -/
def fsSet (fs : FileMap) (p c : String) : FileMap :=
  (p, c) :: fs.filter (fun e => e.1 != p)

/-- Model of `os.remove(p)`; removing an absent path is a no-op, which also
covers the source's `if os.path.exists(...)` guards. -/
def fsRemove (fs : FileMap) (p : String) : FileMap :=
  fs.filter (fun e => e.1 != p)

/-- Model of `shutil.copy2(src, dst)`.  The call sites below always have
`src` present (a no-op here stands in for the `FileNotFoundError` Python
would raise). -/
def fsCopy (fs : FileMap) (src dst : String) : FileMap :=
  match fsLookup fs src with
  | some c => fsSet fs dst c
  | none => fs

/-- Model of `os.path.getsize(p)` (0 stands in for the `OSError` Python
raises on a missing path; the call sites below keep the file present). -/
def fsSize (fs : FileMap) (p : String) : Nat :=
  ((fsLookup fs p).getD "").length

/-- Python slice `s[:n]` over the character list. -/
def strTake (s : String) (n : Nat) : String :=
  String.mk (s.data.take n)

/-- Row of `posts` (fields used by the dedup engine). -/
structure PostInfo where
  id : String
  subreddit : String
  score : ℤ
  created_utc : ℤ
  deriving Repr, DecidableEq

/-- Row of `post_media` (fields used by the dedup engine). -/
structure MediaRow where
  post_id : String
  position : Nat
  download_path : Option String
  downloaded : Bool
  media_status : String
  deriving Repr, DecidableEq

/-- Row of `media_deduplication` (schema.py lines 132–142; note there is no
uniqueness constraint on `canonical_hash`). -/
structure DedupRow where
  canonical_hash : String
  quick_hash : String
  canonical_path : String
  first_seen_post_id : String
  total_size : Nat
  duplicate_count : Nat
  deriving Repr, DecidableEq

/-- Row of `media_links`. -/
structure LinkRow where
  post_id : String
  canonical_hash : String
  symlink_path : Option String
  is_crosspost : Bool
  deriving Repr, DecidableEq

/-- Database state seen by the dedup engine.  `strategyCfg` is the
`subreddit_duplicate_strategy` config row (`none` when absent). -/
structure Db where
  posts : List PostInfo
  media : List MediaRow
  dedup : List DedupRow
  links : List LinkRow
  strategyCfg : Option String
  deriving Repr, DecidableEq

/-- Path from `PathManager.get_media_path`:
`media/{subreddit}/{post_id}_{position}{ext}`.  The extension comes from
`_determine_extension`; no claim depends on it, so the `.jpg` default is
used. -/
def mediaPath (sub pid : String) (pos : Nat) : String :=
  "media/" ++ sub ++ "/" ++ pid ++ "_" ++ toString pos ++ ".jpg"

/-- Path from `PathManager.get_temp_path`:
`media/temp/{post_id}_{position}_temp`. -/
def tempPath (pid : String) (pos : Nat) : String :=
  "media/temp/" ++ pid ++ "_" ++ toString pos ++ "_temp"

/-- Modelled from the spec: `PathManager.get_media_url_path` is called by
`process_post` but is absent from the sources in `src/`; per the spec's
filesystem layout ("a media root partitioned by subreddit, files named by
post id and position with extension inferred from URL/service"), the
browser-facing URL path mirrors the media path. -/
def mediaUrlPath (sub pid : String) (pos : Nat) : String :=
  "/media/" ++ sub ++ "/" ++ pid ++ "_" ++ toString pos ++ ".jpg"

/-- One row of the join in `_check_for_duplicates`
(`media_deduplication d JOIN post_media m ON m.post_id = d.first_seen_post_id
JOIN posts p ON m.post_id = p.id`). -/
structure DupCandidate where
  canonical_hash : String
  canonical_path : String
  first_seen_post_id : String
  download_path : Option String
  id : String
  score : ℤ
  created_utc : ℤ
  deriving Repr, DecidableEq

/-- Result rows of the `_check_for_duplicates` query, in row order:
join rows restricted to `quick_hash = qh`, `p.subreddit = sub`,
`p.id != pid`. -/
def dupCandidates (db : Db) (qh sub pid : String) : List DupCandidate :=
  db.dedup.flatMap fun d =>
    (db.media.filter fun m => m.post_id == d.first_seen_post_id).flatMap fun m =>
      (db.posts.filter fun p => p.id == m.post_id).filterMap fun p =>
        if d.quick_hash == qh && p.subreddit == sub && p.id != pid then
          some ⟨d.canonical_hash, d.canonical_path, d.first_seen_post_id,
                m.download_path, p.id, p.score, p.created_utc⟩
        else none

/-- Embedding of `_check_for_duplicates`.  `lookupOk = false` models the
`except` branch (any internal error), which returns `(False, None)`.
Otherwise `fetchone` takes the first candidate row; a duplicate is reported
only when its `canonical_hash` equals the full `fileHash`. -/
def checkForDuplicates (lookupOk : Bool) (db : Db)
    (fileHash qh sub pid : String) : Bool × Option DupCandidate :=
  if !lookupOk then (false, none)
  else
    match (dupCandidates db qh sub pid).head? with
    | none => (false, none)
    | some c => if c.canonical_hash == fileHash then (true, some c) else (false, none)

/-- The `UPDATE media_deduplication SET canonical_path, first_seen_post_id,
total_size WHERE canonical_hash = ?` statement. -/
def updateDedupReplace (db : Db) (fileHash newPath newOwner : String)
    (newSize : Nat) : Db :=
  { db with dedup := db.dedup.map fun d =>
      if d.canonical_hash == fileHash then
        { d with canonical_path := newPath, first_seen_post_id := newOwner,
                 total_size := newSize }
      else d }

/-- The `UPDATE post_media SET download_path = ? WHERE download_path = ? AND
post_id != ?` statement; a NULL comparison value matches no row. -/
def repointMedia (db : Db) (oldPath : Option String) (newPath : String)
    (exceptId : String) : Db :=
  match oldPath with
  | none => db
  | some dp =>
    { db with media := db.media.map fun m =>
        if m.download_path == some dp && m.post_id != exceptId then
          { m with download_path := some newPath }
        else m }

/-- The `UPDATE post_media SET download_path, downloaded = 1, media_status,
... WHERE post_id = ? AND position = ?` statement (timestamps omitted). -/
def markMediaDownloaded (db : Db) (pid : String) (pos : Nat)
    (path : Option String) (status : String) : Db :=
  { db with media := db.media.map fun m =>
      if m.post_id == pid && m.position == pos then
        { m with download_path := path, downloaded := true, media_status := status }
      else m }

/-- An `INSERT INTO media_links` statement.  `media_links` carries no
uniqueness constraint, so the keep-current branch's `ON CONFLICT DO NOTHING`
clause never fires and both branches always insert. -/
def insertLink (db : Db) (pid fileHash : String) (symlink : Option String) : Db :=
  { db with links := db.links ++ [⟨pid, fileHash, symlink, false⟩] }

/-- The `UPDATE media_deduplication SET duplicate_count = duplicate_count + 1
WHERE canonical_hash = ?` statement. -/
def bumpDuplicateCount (db : Db) (fileHash : String) : Db :=
  { db with dedup := db.dedup.map fun d =>
      if d.canonical_hash == fileHash then
        { d with duplicate_count := d.duplicate_count + 1 }
      else d }

/-- The `keep_current` decision of `_handle_duplicate`. -/
def keepCurrentDecision (strategy : String) (cur : PostInfo)
    (cand : DupCandidate) : Bool :=
  if strategy == "highest_voted" then decide (cur.score > cand.score)
  else if strategy == "oldest" then decide (cur.created_utc < cand.created_utc)
  else false

/-- States traversed by the `keep_current` branch of `_handle_duplicate`,
one per primitive effect, in program order: initial; after
`os.remove(canonical_path)`; after `shutil.copy2(temp, new_final)`; after the
`media_deduplication` repoint; after the `post_media` repoint; after the
current row's update; after the `media_links` insert. -/
def handleDuplicateKeepStates (db : Db) (fs : FileMap) (cur : PostInfo)
    (cand : DupCandidate) (tempP urlP : String) (pos : Nat) (fileHash : String) :
    List (Db × FileMap) :=
  let fs1 := fsRemove fs cand.canonical_path
  let newFinal := mediaPath cur.subreddit cur.id pos
  let fs2 := fsCopy fs1 tempP newFinal
  let db1 := updateDedupReplace db fileHash newFinal cur.id (fsSize fs2 tempP)
  let db2 := repointMedia db1 cand.download_path urlP cur.id
  let db3 := markMediaDownloaded db2 cur.id pos (some urlP) "downloaded"
  let db4 := insertLink db3 cand.id fileHash cand.download_path
  [(db, fs), (db, fs1), (db, fs2), (db1, fs2), (db2, fs2), (db3, fs2), (db4, fs2)]

/-- Embedding of `_handle_duplicate`: read the strategy (default
`highest_voted`), then either replace the canonical file with the current
post's (keep-current) or record the current post as a duplicate.  Note the
keep-current branch copies the temp file but never deletes it. -/
def handleDuplicate (db : Db) (fs : FileMap) (cur : PostInfo)
    (cand : DupCandidate) (tempP urlP : String) (pos : Nat) (fileHash : String) :
    Db × FileMap :=
  let strategy := db.strategyCfg.getD "highest_voted"
  if keepCurrentDecision strategy cur cand then
    let fs1 := fsRemove fs cand.canonical_path
    let newFinal := mediaPath cur.subreddit cur.id pos
    let fs2 := fsCopy fs1 tempP newFinal
    let db1 := updateDedupReplace db fileHash newFinal cur.id (fsSize fs2 tempP)
    let db2 := repointMedia db1 cand.download_path urlP cur.id
    let db3 := markMediaDownloaded db2 cur.id pos (some urlP) "downloaded"
    let db4 := insertLink db3 cand.id fileHash cand.download_path
    (db4, fs2)
  else
    let fs1 := fsRemove fs tempP
    let db1 := insertLink db cur.id fileHash (some urlP)
    let db2 := markMediaDownloaded db1 cur.id pos cand.download_path "duplicate"
    let db3 := bumpDuplicateCount db2 fileHash
    (db3, fs1)

/-- The per-item success path of `process_post` for media item `pos` of
`post`: the download has just written `content` to the temp path; hash,
check for duplicates, then either resolve the duplicate or promote the temp
file and insert a canonical record. -/
def processMediaItem (hashFn : String → String) (db : Db) (fs : FileMap)
    (post : PostInfo) (pos : Nat) (content : String) (lookupOk : Bool) :
    Db × FileMap :=
  let tempP := tempPath post.id pos
  let fs0 := fsSet fs tempP content
  let fileHash := hashFn content
  let qh := strTake fileHash 16
  let urlP := mediaUrlPath post.subreddit post.id pos
  match checkForDuplicates lookupOk db fileHash qh post.subreddit post.id with
  | (true, some cand) => handleDuplicate db fs0 post cand tempP urlP pos fileHash
  | _ =>
    let finalP := mediaPath post.subreddit post.id pos
    let fs1 := fsCopy fs0 tempP finalP
    let fs2 := fsRemove fs1 tempP
    let db1 := { db with dedup := db.dedup ++
      [⟨fileHash, qh, finalP, post.id, fsSize fs2 finalP, 0⟩] }
    let db2 := markMediaDownloaded db1 post.id pos (some urlP) "downloaded"
    (db2, fs2)

/-- Canonical-record invariant of the spec: the record's `canonical_path`
names an existing file whose content hash equals `canonical_hash`. -/
def canonicalIntact (hashFn : String → String) (fs : FileMap) (d : DedupRow) :
    Bool :=
  match fsLookup fs d.canonical_path with
  | some c => hashFn c == d.canonical_hash
  | none => false

/-- Fresh database for a two-post scenario: both posts present with one
pending media row each at position 0, no dedup state, no configured
strategy. -/
def freshDb (A B : PostInfo) : Db :=
  ⟨[A, B],
   [⟨A.id, 0, none, false, "pending"⟩, ⟨B.id, 0, none, false, "pending"⟩],
   [], [], none⟩

/-- Process `first`'s media item 0 and then `second`'s, both downloads
delivering the same byte content. -/
def runTwo (hashFn : String → String) (db0 : Db) (first second : PostInfo)
    (content : String) : Db × FileMap :=
  let r1 := processMediaItem hashFn db0 [] first 0 content true
  processMediaItem hashFn r1.1 r1.2 second 0 content true

/-! ### Concrete two-post scenarios (used by the dedup theorems) -/

/-- Hash function for the concrete scenarios (stands in for SHA-256). -/
def exHash (c : String) : String :=
  c ++ "#sha256"

/-- The higher-scored post of the two-post scenarios. -/
def pHigh : PostInfo :=
  ⟨"p_high", "pics", 10, 200⟩

/-- The lower-scored post of the two-post scenarios. -/
def pLow : PostInfo :=
  ⟨"p_low", "pics", 5, 100⟩

/-- State after processing `pLow`'s media first on a fresh database. -/
def exRun1 : Db × FileMap :=
  processMediaItem exHash (freshDb pHigh pLow) [] pLow 0 "CONTENT" true

/-- Second processing of the same content for `pHigh` while the duplicate
lookup hits an internal error (`_check_for_duplicates` returns
`(False, None)`). -/
def exRun2Err : Db × FileMap :=
  processMediaItem exHash exRun1.1 exRun1.2 pHigh 0 "CONTENT" false

/-- Candidate row the successful lookup finds when `pHigh` is processed
after `pLow`. -/
def c5Cand : DupCandidate :=
  ((checkForDuplicates true exRun1.1 (exHash "CONTENT")
    (strTake (exHash "CONTENT") 16) "pics" "p_high").2).getD
    ⟨"", "", "", none, "", 0, 0⟩

/-- Filesystem at entry of `_handle_duplicate` when `pHigh` is processed
(the download already wrote the temp file). -/
def c5Fs0 : FileMap :=
  fsSet exRun1.2 (tempPath "p_high" 0) "CONTENT"

/-- Intermediate states of the canonical replacement in the C5 scenario. -/
def c5Trace : List (Db × FileMap) :=
  handleDuplicateKeepStates exRun1.1 c5Fs0 pHigh c5Cand (tempPath "p_high" 0)
    (mediaUrlPath "pics" "p_high" 0) 0 (exHash "CONTENT")

/-- The canonical record after the C5 replacement completes. -/
def c5FinalRec : DedupRow :=
  ⟨exHash "CONTENT", strTake (exHash "CONTENT") 16, mediaPath "pics" "p_high" 0,
   "p_high", 7, 0⟩

/-- The end-state properties C3 asserts for two same-content posts `A`
(higher-scored) and `B`: one canonical record for the content hash, owned by
`A`, and one `media_links` row, pointing from `B`. -/
def dedupEndSpec (h : String → String) (c : String) (A B : PostInfo)
    (db' : Db) : Prop :=
  (db'.dedup.filter (fun d => d.canonical_hash == h c)).length = 1 ∧
  (∀ d ∈ db'.dedup, d.canonical_hash = h c → d.first_seen_post_id = A.id) ∧
  (db'.links.filter (fun l => l.canonical_hash == h c)).length = 1 ∧
  (∀ l ∈ db'.links, l.canonical_hash = h c → l.post_id = B.id)

/-- Database used by the C4 witness: one canonical record owned by post `p1`
in subreddit `pics`, with its join rows. -/
def c4Db : Db :=
  ⟨[⟨"p1", "pics", 7, 100⟩],
   [⟨"p1", 0, some "/media/pics/p1_0.jpg", true, "downloaded"⟩],
   [⟨"HASH", "QH", "media/pics/p1_0.jpg", "p1", 3, 0⟩],
   [], none⟩

/-- Candidate row the C4 witness obtains. -/
def c4Cand : DupCandidate :=
  ⟨"HASH", "media/pics/p1_0.jpg", "p1", some "/media/pics/p1_0.jpg", "p1", 7, 100⟩

/-! ## Task queue consumer loop (`app/services/task_queues.py`,
`TaskQueue._process_queue`)

The replenishment and sleep branches are abstracted away: the loop is
modelled on the list of tasks it dequeues.  Handler outcomes live in
`Except String Unit`; an exception that escaped the loop body would abort
the whole run as `.error`. -/

/-- Observable loop state: the `running` flag, the `task_count` counter, and
the processing log (`none` = task handled, `some e` = exception caught and
logged at the loop boundary). -/
structure QueueState where
  running : Bool
  processed : Nat
  history : List (Option String)
  deriving Repr, DecidableEq

/-- One loop body iteration around the dispatched handler: the
`try ... except Exception as e: logging.error(...)` wrapper at the task
boundary converts a raised exception into a logged outcome. -/
def runTask {τ : Type} (handler : τ → Except String Unit) (t : τ) :
    Option String :=
  match handler t with
  | .ok _ => none
  | .error e => some e

/-- The consumer loop over the tasks it dequeues.  The `Except` result makes
exception propagation explicit: an uncaught exception would surface as
`.error` and terminate the loop. -/
def processQueueLoop {τ : Type} (handler : τ → Except String Unit) :
    List τ → QueueState → Except String QueueState
  | [], s => .ok s
  | t :: ts, s =>
    processQueueLoop handler ts
      { s with processed := s.processed + 1,
               history := runTask handler t :: s.history }

/-! ## Theorems -/

/-- Helper: a burst run started with `k ≤ N` available tokens and no elapsed
time yields `k` zero-delay calls and then the full base delay. -/
theorem burstRun_from_tokens (d t0 : ℚ) (hd : 0 < d) (N : Nat) (hN : N ≠ 0)
    (rd : Bool) : ∀ k : Nat, k ≤ N →
    burstRun ⟨d, N, (k : ℤ), t0, rd⟩ (k + 1) = List.replicate k 0 ++ [d] := by
  intro k
  induction k with
  | zero =>
    intro _
    simp [burstRun, RateLimiter.acquireNow, RateLimiter.acquire, replenish, pyInt, hN,
      Int.floor_zero, hd, max_eq_left hd.le]
    exact hd.le
  | succ k ih =>
    intro hk
    have hk' : k ≤ N := Nat.le_of_succ_le hk
    have hcast : (((k + 1 : Nat)) : ℤ) = (k : ℤ) + 1 := by push_cast; ring
    have hrep : replenish N (((k + 1 : Nat)) : ℤ) (t0 - t0) d = (k : ℤ) + 1 := by
      simp [replenish, pyInt, hN, hcast]
      exact_mod_cast hk
    have hpos : (0 : ℤ) < (k : ℤ) + 1 := by positivity
    have hstep : (⟨d, N, ((k + 1 : Nat) : ℤ), t0, rd⟩ : RateLimiter).acquireNow =
        (⟨d, N, (k : ℤ), t0, rd⟩, 0) := by
      unfold RateLimiter.acquireNow RateLimiter.acquire
      simp only [hrep, hpos, if_true, lt_self_iff_false, and_false, if_false]
      norm_num
    conv_lhs => rw [burstRun]
    show ((⟨d, N, ((k + 1 : Nat) : ℤ), t0, rd⟩ : RateLimiter).acquireNow).2 ::
        burstRun ((⟨d, N, ((k + 1 : Nat) : ℤ), t0, rd⟩ : RateLimiter).acquireNow).1 (k + 1) =
        List.replicate (k + 1) 0 ++ [d]
    rw [hstep]
    simp [ih hk', List.replicate_succ]

/-- C7: for a rate limiter with `burst_allowance = 0` (hence zero burst
tokens) and `delay = 60 / calls_per_minute`, an `acquire` entered at or after
the previous completion, with nonnegative jitter, completes at least
`60 / calls_per_minute` after the previous completion — jitter only adds
delay, never reducing the separation. -/
theorem acquire_min_separation (c : ℚ) (hc : 0 < c) (s : RateLimiter)
    (now jit : ℚ) (hdelay : s.delay = 60 / c) (hba : s.burstAllowance = 0)
    (hbt : s.burstTokens = 0) (hnow : s.lastCall ≤ now) (hjit : 0 ≤ jit) :
    60 / c ≤ (s.acquire now jit).1.lastCall - s.lastCall := by
  unfold RateLimiter.acquire replenish
  simp only [hba, hbt, hdelay]
  norm_num
  have hmax1 : s.delay - (now - s.lastCall) ≤ max 0 (s.delay - (now - s.lastCall)) :=
    le_max_right _ _
  have hmax0 : (0 : ℚ) ≤ max 0 (s.delay - (now - s.lastCall)) := le_max_left _ _
  rw [hdelay] at hmax1
  split_ifs with h1 <;> linarith

/-- C7 witness: a limiter built with `calls_per_minute = 60`,
`burst_allowance = 0`, entered at time 1/2 after construction. -/
theorem acquire_min_separation_witness :
    60 / 60 ≤ ((RateLimiter.init 60 true 0).acquire (1/2) 0).1.lastCall -
      (RateLimiter.init 60 true 0).lastCall :=
  acquire_min_separation 60 (by norm_num) _ (1/2) 0 (by norm_num [RateLimiter.init])
    (by norm_num [RateLimiter.init]) (by norm_num [RateLimiter.init])
    (by norm_num [RateLimiter.init]) (by norm_num)

/-- C8: a limiter with `burst_allowance = N > 0`, on `N + 1` back-to-back
`acquire` calls, grants the first `N` with zero base delay and imposes the
full base delay `60 / calls_per_minute` on call `N + 1`; moreover token
replenishment adds `⌊elapsed / delay⌋` tokens capped at `N`. -/
theorem burst_allowance_run (cpm : ℚ) (hcpm : 0 < cpm) (N : Nat) (hN : 0 < N)
    (rd : Bool) :
    burstRun (RateLimiter.init cpm rd N) (N + 1) =
      List.replicate N 0 ++ [60 / cpm] ∧
    ∀ (tok : ℤ) (e : ℚ), 0 ≤ e →
      replenish N tok e (60 / cpm) = min (N : ℤ) (tok + ⌊e / (60 / cpm)⌋) := by
  have hd : (0 : ℚ) < 60 / cpm := by positivity
  constructor
  · simpa [RateLimiter.init] using
      burstRun_from_tokens (60 / cpm) 0 hd N hN.ne' rd N le_rfl
  · intro tok e he
    simp [replenish, pyInt, hN.ne', div_nonneg he hd.le]

/-- C8 witness: `calls_per_minute = 60`, `burst_allowance = 2`, three
back-to-back calls. -/
theorem burst_allowance_run_witness :
    burstRun (RateLimiter.init 60 false 2) 3 = List.replicate 2 0 ++ [60 / 60] :=
  (burst_allowance_run 60 (by norm_num) 2 (by norm_num) false).1

/-- C9: the consumer loop of `_process_queue` processes every dequeued task
and never surfaces a handler exception: whatever the handler does on each
task, the loop completes normally (`.ok`), its `running` flag untouched, with
one processed count and one history entry per task. -/
theorem processQueueLoop_survives_exceptions {τ : Type}
    (handler : τ → Except String Unit) (tasks : List τ) (s0 : QueueState) :
    processQueueLoop handler tasks s0 =
      .ok ⟨s0.running, s0.processed + tasks.length,
           (tasks.map (runTask handler)).reverse ++ s0.history⟩ := by
  induction tasks generalizing s0 with
  | nil => simp [processQueueLoop]
  | cons t ts ih =>
    simp [processQueueLoop, ih]
    omega

/-- C2: a fetch that answers HTTP 404 on every attempt does not short-circuit
`download_with_retry`: the message "Media no longer available on server"
matches no permanent-failure token, so the executor makes all three network
calls, returns the generic failed-after-3-attempts error, and never persists
the `permanently_removed` status (the claim expects one call, an immediate
permanent failure, and the persisted status). -/
theorem download404_retried_three_times :
    downloadWithRetry fetch404 3 =
      ⟨false, some "Failed after 3 attempts: Media no longer available on server",
       3, false⟩ := by
  decide

set_option maxRecDepth 20000 in
/-- C1: on the spec's demo state — subreddit A with 10 posts of which 1 is
downloaded, subreddit B with 100 posts of which 50 are downloaded — the
selection query of `get_next_batch` picks B, not A:
`COUNT(DISTINCT CASE WHEN p.downloaded = 1 THEN 1 END)` computes 1 for both
subreddits, so B's percent (1%) undercuts A's (10%). -/
theorem getNextBatch_demo_selects_sub_b :
    getNextBatchSubreddit demoSubreddits demoPosts = some "sub_b" ∧
    subredditStats demoSubreddits demoPosts =
      [⟨"sub_a", 10, 1⟩, ⟨"sub_b", 100, 1⟩] := by
  have hstats : subredditStats demoSubreddits demoPosts =
      [⟨"sub_a", 10, 1⟩, ⟨"sub_b", 100, 1⟩] := by decide
  refine ⟨?_, hstats⟩
  have hb : percentComplete ⟨"sub_b", 100, 1⟩ = 1 := by
    unfold percentComplete round2
    norm_num
  have ha : percentComplete ⟨"sub_a", 10, 1⟩ = 10 := by
    unfold percentComplete round2
    norm_num
  unfold getNextBatchSubreddit selectLowestCompletion
  rw [hstats]
  simp only [List.foldl]
  rw [if_pos (Or.inl (by rw [ha, hb]; norm_num))]
  rfl

/-- Helper: a removed path has no entry. -/
theorem fsLookupB_fsRemoveB (fs : ByteFS) (p : String) :
    fsLookupB (fsRemoveB fs p) p = none := by
  unfold fsLookupB fsRemoveB
  induction fs with
  | nil => rfl
  | cons e t ih =>
    rw [List.filter_cons]
    by_cases h : e.1 = p
    · rw [if_neg (by simp [h])]
      exact ih
    · rw [if_pos (by simp [h]), List.find?_cons_of_neg _ (by simp [h])]
      exact ih

/-- Helper: every failure of the write stage deletes the file it wrote. -/
theorem downloadWrite_failure_removes_file (fs : ByteFS)
    (savePath service ct : String) (r : HttpResponse) (err : Option String)
    (fs' : ByteFS)
    (h : downloadWrite fs savePath service ct r = ((false, err), fs')) :
    fsLookupB fs' savePath = none := by
  unfold downloadWrite at h
  dsimp only at h
  repeat' split at h
  all_goals (
    have hfs := congrArg Prod.snd h
    have hb := congrArg (fun x => x.1.1) h
    dsimp only at hfs hb)
  all_goals first
    | exact Bool.noConfusion hb
    | (rw [← hfs]; exact fsLookupB_fsRemoveB _ _)

/-- Helper: a failing response stage leaves no file at `save_path` when none
was there before. -/
theorem downloadResponse_failure_no_file (fs : ByteFS)
    (savePath service : String) (r : HttpResponse) (err : Option String)
    (fs' : ByteFS) (h0 : fsLookupB fs savePath = none)
    (h : downloadResponse fs savePath service r = ((false, err), fs')) :
    fsLookupB fs' savePath = none := by
  unfold downloadResponse at h
  dsimp only at h
  repeat' split at h
  any_goals exact downloadWrite_failure_removes_file fs savePath service _ r err fs' h
  all_goals (
    have hfs := congrArg Prod.snd h
    dsimp only at hfs)
  all_goals rw [← hfs]
  all_goals first
    | exact h0
    | exact fsLookupB_fsRemoveB _ _

/-- C10: `download_file` never returns a failure while leaving a file at
`save_path`: starting from a filesystem with no file at `save_path`, every
failing run — including those that wrote bytes before failing (mid-stream
exception, empty file, imgur 503-byte sentinel, magic-number mismatch) —
ends with no file at `save_path`. -/
theorem downloadFile_failure_leaves_no_file (fs : ByteFS)
    (url savePath service : String) (prep : Option String)
    (resp : Except String HttpResponse) (err : Option String) (fs' : ByteFS)
    (h0 : fsLookupB fs savePath = none)
    (h : downloadFile fs url savePath service prep resp = ((false, err), fs')) :
    fsLookupB fs' savePath = none := by
  unfold downloadFile at h
  repeat' split at h
  any_goals exact downloadResponse_failure_no_file fs savePath service _ err fs' h0 h
  all_goals (
    have hfs := congrArg Prod.snd h
    dsimp only at hfs)
  all_goals rw [← hfs]
  all_goals first
    | exact h0
    | exact fsLookupB_fsRemoveB _ _

/-- C10 witness: a download of bytes `[1, 2, 3]` declared `image/png` fails
magic-number validation after the bytes were written; the file is gone. -/
theorem downloadFile_failure_leaves_no_file_witness :
    fsLookupB [] "media/temp/p1_0_temp" = none :=
  downloadFile_failure_leaves_no_file [] "https://i.redd.it/x.png"
    "media/temp/p1_0_temp" "reddit" (some "https://i.redd.it/x.png")
    (.ok ⟨200, 2000, "image/png", [1, 2, 3], none⟩)
    (some "Invalid file signature for content type image/png") []
    (by decide) (by decide)

/-- Helper: facts about any row of the `_check_for_duplicates` join. -/
theorem mem_dupCandidates {db : Db} {qh sub pid : String} {c : DupCandidate}
    (hc : c ∈ dupCandidates db qh sub pid) :
    c.id ≠ pid ∧
    (∃ d ∈ db.dedup, d.quick_hash = qh ∧ d.canonical_hash = c.canonical_hash ∧
      d.canonical_path = c.canonical_path ∧
      d.first_seen_post_id = c.first_seen_post_id) ∧
    (∃ p ∈ db.posts, p.id = c.id ∧ p.subreddit = sub ∧ p.score = c.score) := by
  unfold dupCandidates at hc
  simp only [List.mem_flatMap, List.mem_filter, List.mem_filterMap] at hc
  obtain ⟨d, hd, m, ⟨hm, hmd⟩, p, ⟨⟨hp, hpm⟩, hf⟩⟩ := hc
  split at hf
  case isTrue hcond =>
    have hq : d.quick_hash = qh := by
      have := hcond
      simp only [Bool.and_eq_true, beq_iff_eq] at this
      exact this.1.1
    have hs : p.subreddit = sub := by
      have := hcond
      simp only [Bool.and_eq_true, beq_iff_eq] at this
      exact this.1.2
    have hnp : p.id ≠ pid := by
      have := hcond
      simp only [Bool.and_eq_true, bne_iff_ne] at this
      exact this.2
    have hfc := Option.some.inj hf
    subst hfc
    exact ⟨hnp, ⟨d, hd, hq, rfl, rfl, rfl⟩, ⟨p, hp, rfl, hs, rfl⟩⟩
  case isFalse => exact absurd hf (by simp)

/-- C4: `_check_for_duplicates` reports a duplicate only when the single
candidate fetched by the quick-hash query — a join row whose dedup record
matches `quick_hash`, whose post sits in the same subreddit, and whose post
id differs from the current post — has `canonical_hash` equal to the file's
full hash; a quick-hash-only match is never reported. -/
theorem checkForDuplicates_requires_full_hash (lookupOk : Bool) (db : Db)
    (fileHash qh sub pid : String) (r : DupCandidate)
    (h : checkForDuplicates lookupOk db fileHash qh sub pid = (true, some r)) :
    (dupCandidates db qh sub pid).head? = some r ∧
    r.canonical_hash = fileHash ∧ r.id ≠ pid ∧
    (∃ d ∈ db.dedup, d.quick_hash = qh ∧ d.canonical_hash = r.canonical_hash) ∧
    (∃ p ∈ db.posts, p.id = r.id ∧ p.subreddit = sub) := by
  unfold checkForDuplicates at h
  split at h
  · exact absurd h (by simp)
  · split at h
    case h_1 => exact absurd h (by simp)
    case h_2 c hc =>
      split at h
      case isTrue hbeq =>
        have hcr : c = r := by
          have := congrArg Prod.snd h
          simpa using this
        subst hcr
        have hmem : c ∈ dupCandidates db qh sub pid := by
          rcases hl : dupCandidates db qh sub pid with _ | ⟨x, xs⟩
          · rw [hl] at hc; exact absurd hc (by simp)
          · rw [hl] at hc
            have hx : x = c := by simpa using hc
            subst hx
            simp [hl]
        obtain ⟨hne, ⟨d, hd, hq, hh, -, -⟩, ⟨p, hp, hpi, hps, -⟩⟩ :=
          mem_dupCandidates hmem
        exact ⟨hc, by simpa using hbeq, hne, ⟨d, hd, hq, hh⟩, ⟨p, hp, hpi, hps⟩⟩
      case isFalse => exact absurd h (by simp)

/-- C4 witness: checking post `p2`'s file with matching quick and full hash
against `c4Db` reports the duplicate with full-hash confirmation. -/
theorem checkForDuplicates_requires_full_hash_witness :
    (dupCandidates c4Db "QH" "pics" "p2").head? = some c4Cand ∧
    c4Cand.canonical_hash = "HASH" :=
  have h := checkForDuplicates_requires_full_hash true c4Db "HASH" "QH" "pics"
    "p2" c4Cand (by decide)
  ⟨h.1, h.2.1⟩

/-- Helper: a media path never coincides with a temp path (their literal
suffixes `.jpg` and `_temp` differ). -/
theorem mediaPath_ne_tempPath (s p : String) (i : Nat) (q : String) (j : Nat) :
    mediaPath s p i ≠ tempPath q j := by
  intro h
  have hd := congrArg (fun t : String => t.data.reverse) h
  simp [mediaPath, tempPath, String.data_append, List.reverse_append] at hd

/-- Helper: processing the first post's media on a fresh database promotes
the temp file and inserts the canonical record. -/
theorem processFirst (h : String → String) (c : String) (A B : PostInfo)
    (hid : A.id ≠ B.id) :
    processMediaItem h (freshDb A B) [] A 0 c true =
    (⟨[A, B],
      [⟨A.id, 0, some (mediaUrlPath A.subreddit A.id 0), true, "downloaded"⟩,
       ⟨B.id, 0, none, false, "pending"⟩],
      [⟨h c, strTake (h c) 16, mediaPath A.subreddit A.id 0, A.id, c.length, 0⟩],
      [], none⟩,
     [(mediaPath A.subreddit A.id 0, c)]) := by
  have hBA : (B.id == A.id) = false := by simp [hid.symm]
  have htf2 : (tempPath A.id 0 == mediaPath A.subreddit A.id 0) = false := by
    simp only [beq_eq_false_iff_ne, ne_eq]
    intro hh
    exact mediaPath_ne_tempPath _ _ _ _ _ hh.symm
  have hmf : (mediaPath A.subreddit A.id 0 == tempPath A.id 0) = false := by
    simp only [beq_eq_false_iff_ne, ne_eq]
    exact mediaPath_ne_tempPath _ _ _ _ _
  have hbne1 : (mediaPath A.subreddit A.id 0 != tempPath A.id 0) = true := by
    simp [bne, hmf]
  have hbne2 : (tempPath A.id 0 != mediaPath A.subreddit A.id 0) = true := by
    simp [bne, htf2]
  simp [processMediaItem, checkForDuplicates, dupCandidates, freshDb,
    fsSet, fsRemove, fsCopy, fsLookup, fsSize, markMediaDownloaded,
    hBA, htf2, hmf, hbne1, hbne2, List.filter, List.find?, hid, hid.symm]

/-- Helper: the mirror of `processFirst` for the second-listed post. -/
theorem processFirstB (h : String → String) (c : String) (A B : PostInfo)
    (hid : A.id ≠ B.id) :
    processMediaItem h (freshDb A B) [] B 0 c true =
    (⟨[A, B],
      [⟨A.id, 0, none, false, "pending"⟩,
       ⟨B.id, 0, some (mediaUrlPath B.subreddit B.id 0), true, "downloaded"⟩],
      [⟨h c, strTake (h c) 16, mediaPath B.subreddit B.id 0, B.id, c.length, 0⟩],
      [], none⟩,
     [(mediaPath B.subreddit B.id 0, c)]) := by
  have hAB : (A.id == B.id) = false := by simp [hid]
  have htf2 : (tempPath B.id 0 == mediaPath B.subreddit B.id 0) = false := by
    simp only [beq_eq_false_iff_ne, ne_eq]
    intro hh
    exact mediaPath_ne_tempPath _ _ _ _ _ hh.symm
  have hmf : (mediaPath B.subreddit B.id 0 == tempPath B.id 0) = false := by
    simp only [beq_eq_false_iff_ne, ne_eq]
    exact mediaPath_ne_tempPath _ _ _ _ _
  have hbne1 : (mediaPath B.subreddit B.id 0 != tempPath B.id 0) = true := by
    simp [bne, hmf]
  have hbne2 : (tempPath B.id 0 != mediaPath B.subreddit B.id 0) = true := by
    simp [bne, htf2]
  simp [processMediaItem, checkForDuplicates, dupCandidates, freshDb,
    fsSet, fsRemove, fsCopy, fsLookup, fsSize, markMediaDownloaded,
    hAB, htf2, hmf, hbne1, hbne2, List.filter, List.find?, hid, hid.symm]

/-- Helper: processing the lower-scored post second records it as a
duplicate of the existing canonical record. -/
theorem processSecondLower (h : String → String) (c : String) (A B : PostInfo)
    (hid : A.id ≠ B.id) (hsub : A.subreddit = B.subreddit)
    (hscore : B.score < A.score) :
    processMediaItem h
      ⟨[A, B],
       [⟨A.id, 0, some (mediaUrlPath A.subreddit A.id 0), true, "downloaded"⟩,
        ⟨B.id, 0, none, false, "pending"⟩],
       [⟨h c, strTake (h c) 16, mediaPath A.subreddit A.id 0, A.id, c.length, 0⟩],
       [], none⟩
      [(mediaPath A.subreddit A.id 0, c)] B 0 c true =
    (⟨[A, B],
      [⟨A.id, 0, some (mediaUrlPath A.subreddit A.id 0), true, "downloaded"⟩,
       ⟨B.id, 0, some (mediaUrlPath A.subreddit A.id 0), true, "duplicate"⟩],
      [⟨h c, strTake (h c) 16, mediaPath A.subreddit A.id 0, A.id, c.length, 1⟩],
      [⟨B.id, h c, some (mediaUrlPath B.subreddit B.id 0), false⟩], none⟩,
     [(mediaPath A.subreddit A.id 0, c)]) := by
  have hAB : (A.id == B.id) = false := by simp [hid]
  have hBA : (B.id == A.id) = false := by simp [hid.symm]
  have hsub' : (A.subreddit == B.subreddit) = true := by simp [hsub]
  have hsc : ¬(B.score > A.score) := not_lt.mpr hscore.le
  have htf2 : (tempPath B.id 0 == mediaPath A.subreddit A.id 0) = false := by
    simp only [beq_eq_false_iff_ne, ne_eq]
    intro hh
    exact mediaPath_ne_tempPath _ _ _ _ _ hh.symm
  have hmf : (mediaPath A.subreddit A.id 0 == tempPath B.id 0) = false := by
    simp only [beq_eq_false_iff_ne, ne_eq]
    exact mediaPath_ne_tempPath _ _ _ _ _
  have hbne1 : (mediaPath B.subreddit A.id 0 != tempPath B.id 0) = true := by
    simp only [bne_iff_ne, ne_eq]
    exact mediaPath_ne_tempPath _ _ _ _ _
  have hbne2 : (tempPath B.id 0 != mediaPath B.subreddit A.id 0) = true := by
    simp only [bne_iff_ne, ne_eq]
    intro hh
    exact mediaPath_ne_tempPath _ _ _ _ _ hh.symm
  simp [processMediaItem, checkForDuplicates, dupCandidates, handleDuplicate,
    keepCurrentDecision, insertLink, markMediaDownloaded, bumpDuplicateCount,
    fsSet, fsRemove, fsCopy, fsLookup, fsSize,
    hAB, hBA, hsub', hsc, htf2, hmf, hbne1, hbne2, List.filter, List.find?,
    List.findSome?, hsub, hid, hid.symm]

/-- Helper: processing the higher-scored post second replaces the canonical
file and repoints the record and the other post's media row. -/
theorem processSecondHigher (h : String → String) (c : String) (A B : PostInfo)
    (hid : A.id ≠ B.id) (hsub : A.subreddit = B.subreddit)
    (hscore : B.score < A.score) :
    processMediaItem h
      ⟨[A, B],
       [⟨A.id, 0, none, false, "pending"⟩,
        ⟨B.id, 0, some (mediaUrlPath B.subreddit B.id 0), true, "downloaded"⟩],
       [⟨h c, strTake (h c) 16, mediaPath B.subreddit B.id 0, B.id, c.length, 0⟩],
       [], none⟩
      [(mediaPath B.subreddit B.id 0, c)] A 0 c true =
    (⟨[A, B],
      [⟨A.id, 0, some (mediaUrlPath A.subreddit A.id 0), true, "downloaded"⟩,
       ⟨B.id, 0, some (mediaUrlPath A.subreddit A.id 0), true, "downloaded"⟩],
      [⟨h c, strTake (h c) 16, mediaPath A.subreddit A.id 0, A.id, c.length, 0⟩],
      [⟨B.id, h c, some (mediaUrlPath B.subreddit B.id 0), false⟩], none⟩,
     [(mediaPath A.subreddit A.id 0, c), (tempPath A.id 0, c)]) := by
  have hAB : (A.id == B.id) = false := by simp [hid]
  have hBA : (B.id == A.id) = false := by simp [hid.symm]
  have hsub' : (B.subreddit == A.subreddit) = true := by simp [hsub]
  have hsc : A.score > B.score := hscore
  have hnone : ((none : Option String) ==
      some (mediaUrlPath B.subreddit B.id 0)) = false := rfl
  have h1 : (tempPath A.id 0 == mediaPath B.subreddit B.id 0) = false := by
    simp only [beq_eq_false_iff_ne, ne_eq]
    intro hh
    exact mediaPath_ne_tempPath _ _ _ _ _ hh.symm
  have h2 : (mediaPath B.subreddit B.id 0 == tempPath A.id 0) = false := by
    simp only [beq_eq_false_iff_ne, ne_eq]
    exact mediaPath_ne_tempPath _ _ _ _ _
  have h3 : (tempPath A.id 0 != mediaPath B.subreddit B.id 0) = true := by
    simp [bne, h1]
  have h4 : (mediaPath B.subreddit B.id 0 != tempPath A.id 0) = true := by
    simp [bne, h2]
  have h5 : (tempPath A.id 0 != mediaPath A.subreddit A.id 0) = true := by
    simp only [bne_iff_ne, ne_eq]
    intro hh
    exact mediaPath_ne_tempPath _ _ _ _ _ hh.symm
  have h6 : (mediaPath A.subreddit A.id 0 != tempPath A.id 0) = true := by
    simp only [bne_iff_ne, ne_eq]
    exact mediaPath_ne_tempPath _ _ _ _ _
  have h7 : (mediaPath A.subreddit A.id 0 == tempPath A.id 0) = false := by
    simp only [beq_eq_false_iff_ne, ne_eq]
    exact mediaPath_ne_tempPath _ _ _ _ _
  have h8 : (mediaPath B.subreddit A.id 0 == tempPath A.id 0) = false := by
    simp only [beq_eq_false_iff_ne, ne_eq]
    exact mediaPath_ne_tempPath _ _ _ _ _
  have h9 : (tempPath A.id 0 != mediaPath B.subreddit A.id 0) = true := by
    simp only [bne_iff_ne, ne_eq]
    intro hh
    exact mediaPath_ne_tempPath _ _ _ _ _ hh.symm
  simp [processMediaItem, checkForDuplicates, dupCandidates, handleDuplicate,
    handleDuplicateKeepStates, keepCurrentDecision, updateDedupReplace,
    repointMedia, insertLink, markMediaDownloaded, bumpDuplicateCount,
    fsSet, fsRemove, fsCopy, fsLookup, fsSize,
    hAB, hBA, hsub', hsc, hnone, h1, h2, h3, h4, h5, h6, h7, h8, h9,
    List.filter, List.find?, List.findSome?, hsub, hid, hid.symm]

/-- C3: for two posts of the same subreddit with identical downloaded byte
content and distinct scores (A higher), processing their media in either
order under the default `highest_voted` strategy ends with exactly one
canonical record for the content hash, owned by A, and exactly one
`media_links` row, pointing from B. -/
theorem highestVoted_order_independent (h : String → String) (c : String)
    (A B : PostInfo) (hid : A.id ≠ B.id) (hsub : A.subreddit = B.subreddit)
    (hscore : B.score < A.score) :
    dedupEndSpec h c A B (runTwo h (freshDb A B) A B c).1 ∧
    dedupEndSpec h c A B (runTwo h (freshDb A B) B A c).1 := by
  constructor
  · simp only [runTwo]
    rw [processFirst h c A B hid]
    dsimp only
    rw [processSecondLower h c A B hid hsub hscore]
    unfold dedupEndSpec
    simp
  · simp only [runTwo]
    rw [processFirstB h c A B hid]
    dsimp only
    rw [processSecondHigher h c A B hid hsub hscore]
    unfold dedupEndSpec
    simp

/-- C3 witness: the concrete posts `pHigh` and `pLow` with content
`"CONTENT"`, both orders. -/
theorem highestVoted_order_independent_witness :
    ((runTwo exHash (freshDb pHigh pLow) pHigh pLow "CONTENT").1.dedup.filter
      (fun d => d.canonical_hash == exHash "CONTENT")).length = 1 ∧
    ((runTwo exHash (freshDb pHigh pLow) pLow pHigh "CONTENT").1.dedup.filter
      (fun d => d.canonical_hash == exHash "CONTENT")).length = 1 :=
  have t := highestVoted_order_independent exHash "CONTENT" pHigh pLow
    (by decide) rfl (by decide)
  ⟨t.1.1, t.2.1⟩

/-- Helper: a reported duplicate always carries a candidate row. -/
theorem checkForDuplicates_true_exists {lookupOk : Bool} {db : Db}
    {fileHash qh sub pid : String}
    (h : (checkForDuplicates lookupOk db fileHash qh sub pid).1 = true) :
    ∃ c, checkForDuplicates lookupOk db fileHash qh sub pid = (true, some c) := by
  unfold checkForDuplicates at h ⊢
  by_cases hok : (!lookupOk) = true
  · rw [if_pos hok] at h
    simp at h
  · rw [if_neg hok] at h ⊢
    rcases hh : (dupCandidates db qh sub pid).head? with _ | c
    · rw [hh] at h
      simp at h
    · rw [hh] at h
      dsimp only at h ⊢
      by_cases hc : (c.canonical_hash == fileHash) = true
      · rw [if_pos hc]
        exact ⟨c, rfl⟩
      · rw [Bool.not_eq_true] at hc
        rw [hc] at h
        simp at h

/-- Helper: the `post_media` repoint leaves `media_deduplication` alone. -/
theorem repointMedia_dedup (db : Db) (o : Option String) (n e : String) :
    (repointMedia db o n e).dedup = db.dedup := by
  unfold repointMedia
  split <;> rfl

/-- Helper: a rowwise update that preserves `canonical_hash` preserves the
hash column. -/
theorem map_preserves_hashes (l : List DedupRow) (f : DedupRow → DedupRow)
    (hf : ∀ d, (f d).canonical_hash = d.canonical_hash) :
    (l.map f).map (fun d => d.canonical_hash) =
      l.map (fun d => d.canonical_hash) := by
  induction l with
  | nil => rfl
  | cons d t ih => simp [hf, ih]

/-- Helper: `_handle_duplicate` never inserts or deletes a
`media_deduplication` row. -/
theorem handleDuplicate_preserves_hashes (db : Db) (fs : FileMap)
    (cur : PostInfo) (cand : DupCandidate) (tempP urlP : String) (pos : Nat)
    (fileHash : String) :
    (handleDuplicate db fs cur cand tempP urlP pos fileHash).1.dedup.map
      (fun d => d.canonical_hash) = db.dedup.map (fun d => d.canonical_hash) := by
  unfold handleDuplicate
  dsimp only
  split
  · simp only [insertLink, markMediaDownloaded, repointMedia_dedup,
      updateDedupReplace]
    apply map_preserves_hashes
    intro d
    split <;> rfl
  · simp only [bumpDuplicateCount, markMediaDownloaded, insertLink]
    apply map_preserves_hashes
    intro d
    split <;> rfl

/-- C6 counterexample: after `pLow`'s content is stored canonically, a second
processing of the same content for `pHigh` during which the duplicate lookup
errors internally inserts a second canonical record for the same hash in the
same subreddit (the schema has no uniqueness constraint to stop it). -/
theorem dedup_second_record_on_lookup_error :
    exRun2Err.1.dedup.map (fun d => (d.canonical_hash, d.first_seen_post_id)) =
      [(exHash "CONTENT", "p_low"), (exHash "CONTENT", "p_high")] := by
  decide

/-- C6 (amended): when the duplicate lookup completes without internal error
and reports the existing canonical record, processing the post inserts no new
`media_deduplication` row — the hash column is unchanged. -/
theorem processMediaItem_no_second_record (hashFn : String → String) (db : Db)
    (fs : FileMap) (post : PostInfo) (pos : Nat) (content : String)
    (hfound : (checkForDuplicates true db (hashFn content)
      (strTake (hashFn content) 16) post.subreddit post.id).1 = true) :
    (processMediaItem hashFn db fs post pos content true).1.dedup.map
      (fun d => d.canonical_hash) =
      db.dedup.map (fun d => d.canonical_hash) := by
  obtain ⟨c, hc⟩ := checkForDuplicates_true_exists hfound
  simp only [processMediaItem]
  rw [hc]
  exact handleDuplicate_preserves_hashes db _ post c _ _ pos _

/-- C6 witness: reprocessing `pHigh`'s copy of the content with a working
lookup leaves the canonical-hash column unchanged. -/
theorem processMediaItem_no_second_record_witness :
    (processMediaItem exHash exRun1.1 exRun1.2 pHigh 0 "CONTENT" true).1.dedup.map
      (fun d => d.canonical_hash) =
      exRun1.1.dedup.map (fun d => d.canonical_hash) :=
  processMediaItem_no_second_record exHash exRun1.1 exRun1.2 pHigh 0 "CONTENT"
    (by decide)

/-- Helper: the keep-current branch of `_handle_duplicate` ends in the last
state of its effect trace. -/
theorem handleDuplicateKeep_getLast (db : Db) (fs : FileMap) (cur : PostInfo)
    (cand : DupCandidate) (tempP urlP : String) (pos : Nat) (fileHash : String)
    (hkeep : keepCurrentDecision (db.strategyCfg.getD "highest_voted") cur
      cand = true) :
    (handleDuplicateKeepStates db fs cur cand tempP urlP pos fileHash).getLastD
      (db, fs) = handleDuplicate db fs cur cand tempP urlP pos fileHash := by
  unfold handleDuplicate
  rw [if_pos hkeep]
  rfl

/-- Helper: a freshly written path holds the written content. -/
theorem fsLookup_fsSet_self (fs : FileMap) (p c : String) :
    fsLookup (fsSet fs p c) p = some c := by
  simp [fsLookup, fsSet, List.find?]

/-- Helper: removing one path leaves other paths untouched. -/
theorem fsLookup_fsRemove_ne (fs : FileMap) (p q : String) (h : q ≠ p) :
    fsLookup (fsRemove fs p) q = fsLookup fs q := by
  unfold fsLookup fsRemove
  induction fs with
  | nil => rfl
  | cons e t ih =>
    rw [List.filter_cons]
    by_cases he : e.1 = p
    · rw [if_neg (by simp [he])]
      rw [List.find?_cons_of_neg _ (by simp [he, Ne.symm h])]
      exact ih
    · rw [if_pos (by simp [he])]
      by_cases heq : e.1 = q
      · rw [List.find?_cons_of_pos _ (by simp [heq]),
          List.find?_cons_of_pos _ (by simp [heq])]
      · rw [List.find?_cons_of_neg _ (by simp [heq]),
          List.find?_cons_of_neg _ (by simp [heq])]
        exact ih

/-- C5 counterexample: in the concrete replacement scenario (the higher-
scored `pHigh` displacing `pLow`'s canonical file), some intermediate state
of `_handle_duplicate`'s effect trace has the canonical record pointing at a
file that has been deleted and not yet replaced — and that trace's final
state is exactly what processing `pHigh` produces. -/
theorem handleDuplicate_missing_file_window :
    (c5Trace.any fun st => st.1.dedup.any fun d =>
      !(canonicalIntact exHash st.2 d)) = true ∧
    processMediaItem exHash exRun1.1 exRun1.2 pHigh 0 "CONTENT" true =
      c5Trace.getLastD (exRun1.1, c5Fs0) := by
  decide

/-- C5 (amended): once `_handle_duplicate` completes, every canonical record
for the processed content hash again points at an existing file whose content
hashes to `canonical_hash` — the violated window is strictly internal to the
replacement. -/
theorem handleDuplicate_completion_intact (hashFn : String → String) (db : Db)
    (fs : FileMap) (cur : PostInfo) (cand : DupCandidate) (tempP urlP : String)
    (pos : Nat) (fileHash ctmp : String)
    (htemp : fsLookup fs tempP = some ctmp)
    (hhash : hashFn ctmp = fileHash)
    (hCandNe : cand.canonical_path ≠ tempP)
    (hTempNe : ∀ d ∈ db.dedup, d.canonical_path ≠ tempP)
    (hpre : ∀ d ∈ db.dedup, d.canonical_hash = fileHash →
      canonicalIntact hashFn fs d = true) :
    ∀ d ∈ (handleDuplicate db fs cur cand tempP urlP pos fileHash).1.dedup,
      d.canonical_hash = fileHash →
      canonicalIntact hashFn
        (handleDuplicate db fs cur cand tempP urlP pos fileHash).2 d = true := by
  unfold handleDuplicate
  dsimp only
  split
  · intro d hd hh
    simp only [insertLink, markMediaDownloaded, repointMedia_dedup] at hd
    have hd2 : d ∈ (updateDedupReplace db fileHash
        (mediaPath cur.subreddit cur.id pos) cur.id
        (fsSize (fsCopy (fsRemove fs cand.canonical_path) tempP
          (mediaPath cur.subreddit cur.id pos)) tempP)).dedup := hd
    rw [updateDedupReplace, List.mem_map] at hd2
    obtain ⟨d0, hd0, hfd⟩ := hd2
    have hcopy : fsCopy (fsRemove fs cand.canonical_path) tempP
        (mediaPath cur.subreddit cur.id pos) =
        fsSet (fsRemove fs cand.canonical_path)
          (mediaPath cur.subreddit cur.id pos) ctmp := by
      unfold fsCopy
      rw [fsLookup_fsRemove_ne fs cand.canonical_path tempP (Ne.symm hCandNe),
        htemp]
    by_cases hm : (d0.canonical_hash == fileHash) = true
    · rw [hm] at hfd
      simp only [if_true] at hfd
      subst hfd
      unfold canonicalIntact
      dsimp only
      rw [hcopy, fsLookup_fsSet_self]
      simp [hhash, (beq_iff_eq ..).mp hm]
    · rw [Bool.not_eq_true] at hm
      rw [hm] at hfd
      simp at hfd
      subst hfd
      exact absurd hh (by simpa using hm)
  · intro d hd hh
    simp only [bumpDuplicateCount, markMediaDownloaded, insertLink] at hd ⊢
    rw [List.mem_map] at hd
    obtain ⟨d0, hd0, hfd⟩ := hd
    have hpath : d.canonical_path = d0.canonical_path := by
      rw [← hfd]
      split <;> rfl
    have hhash0 : d0.canonical_hash = fileHash := by
      rw [← hh, ← hfd]
      split <;> rfl
    have hint := hpre d0 hd0 hhash0
    unfold canonicalIntact at hint ⊢
    rw [hpath, fsLookup_fsRemove_ne fs tempP d0.canonical_path (hTempNe d0 hd0)]
    rcases hl : fsLookup fs d0.canonical_path with _ | c0
    · rw [hl] at hint
      exact absurd hint (by simp)
    · rw [hl] at hint
      have hdh : d.canonical_hash = d0.canonical_hash := by
        rw [← hfd]
        split <;> rfl
      rw [hdh]
      exact hint

/-- C5 witness: the concrete replacement scenario's final canonical record is
intact. -/
theorem handleDuplicate_completion_intact_witness :
    canonicalIntact exHash
      (handleDuplicate exRun1.1 c5Fs0 pHigh c5Cand (tempPath "p_high" 0)
        (mediaUrlPath "pics" "p_high" 0) 0 (exHash "CONTENT")).2
      c5FinalRec = true :=
  handleDuplicate_completion_intact exHash exRun1.1 c5Fs0 pHigh c5Cand
    (tempPath "p_high" 0) (mediaUrlPath "pics" "p_high" 0) 0
    (exHash "CONTENT") "CONTENT" (by decide) rfl (by decide) (by decide)
    (by decide) c5FinalRec (by decide) (by decide)

end Redditarr
